import Mathlib

/-!
Shallow embedding of the Homies AI service (src/ai_service/app.py) — the
pure-processor endpoints `analyze_image`, `analyze_text`, `match_users` and
`batch_analyze` — together with spec-side definitions used to compare the
implementation against the natural-language specification of the multi-modal
compatibility engine.

Modelling conventions:
- Python floats are modelled as exact rationals (ℚ); every float literal in the
  source is a short decimal, so the arithmetic performed by the code is exact.
- Wall-clock reads (`time.time()`) are modelled by an explicit `Clock` value
  carrying the start and finish times observed by one request handler.
- `Dict[str, Any]` payloads that the code never reads (profile `preferences`,
  `image_metadata`) are modelled as association lists of strings; the code
  treats them as opaque.
- The external decoding pipeline `base64.b64decode` + `PIL.Image.open` is
  modelled as an explicit `decode` function parameter returning either a
  `PILImage` (its `size` and `format` attributes, the only ones the code
  reads) or the error message string `str(e)` of the raised exception.
- `raise HTTPException(...)` is modelled with `Except HTTPException`.
-/

namespace HomiesAI

/-- Start and finish wall-clock times (seconds) observed by one handler:
`t0` models the `start_time = time.time()` read, `t1` the later
`time.time()` read used for `processing_time`. -/
structure Clock where
  t0 : ℚ
  t1 : ℚ
deriving DecidableEq

/-- Python `round(x, 2)` as it behaves on every value this code produces.
Python rounds half-to-even on binary floats; all values rounded by the code
are either exact at two decimals or (in the one case `0.885`, arising as
`(0.85 + 0.92) / 2` in floating point) lie strictly above the decimal
halfway point, so floor of `x * 100 + 1/2` over the exact rationals agrees
with the float result (`0.89`) there. -/
def round2 (q : ℚ) : ℚ :=
  (⌊q * 100 + 1 / 2⌋ : ℚ) / 100

/-- `class UserProfile(BaseModel)` from the source. The `preferences` dict is
never read by the service; its values are modelled as opaque strings. -/
structure UserProfile where
  user_id : String
  name : String
  interests : List String
  lifestyle : String
  description : String
  preferences : List (String × String)
deriving DecidableEq

/-- `class ImageAnalysisRequest(BaseModel)` from the source. -/
structure ImageAnalysisRequest where
  user_id : String
  image_data : String
  image_type : String
  image_metadata : Option (List (String × String)) := none
deriving DecidableEq

/-- `class TextAnalysisRequest(BaseModel)` from the source. -/
structure TextAnalysisRequest where
  user_id : String
  text : String
  text_type : String
deriving DecidableEq

/-- `class MatchRequest(BaseModel)` from the source: two profiles plus
optional lists of base64-encoded images. -/
structure MatchRequest where
  user1_profile : UserProfile
  user2_profile : UserProfile
  user1_images : Option (List String) := none
  user2_images : Option (List String) := none
deriving DecidableEq

/-- The `size` and `format` attributes of a `PIL.Image` object — the only
attributes the service reads after `Image.open`. `format` may be `None`. -/
structure PILImage where
  size : Nat × Nat
  format : Option String
deriving DecidableEq

/-- `fastapi.HTTPException(status_code=..., detail=...)` as raised by the
service: it carries exactly a status code and a detail string. -/
structure HTTPException where
  status_code : Nat
  detail : String
deriving DecidableEq

/-- The mock `analysis_results` dict built by `analyze_image`: fixed keys,
with `image_type` copied from the request and `image_size` / `image_format`
read from the decoded image; every other entry is a constant. -/
structure ImageResults where
  image_type : String
  image_size : Nat × Nat
  image_format : Option String
  color_palette : List String
  objects_detected : List String
  cleanliness_score : ℚ
  lifestyle_indicators : List String
  room_style : String
  clutter_level : String
  aesthetic_preference : String
  personality_hints : List String
deriving DecidableEq

/-- The mock `analysis_results` dict built by `analyze_text`: fixed keys,
with `text_type` copied from the request and `text_length = len(text)`;
every other entry is a constant. -/
structure TextResults where
  text_type : String
  text_length : Nat
  sentiment : String
  sentiment_score : ℚ
  keywords : List String
  personality_traits : List String
  lifestyle_preferences : List String
  communication_style : String
  stress_level : String
  social_preference : String
  cleanliness_priority : String
  noise_tolerance : String
  schedule_preference : String
deriving DecidableEq

/-- The `results: Dict[str, Any]` field of `AnalysisResponse`, which holds
either an image-analysis or a text-analysis payload. -/
inductive ResultsPayload where
  | image (r : ImageResults)
  | text (r : TextResults)
deriving DecidableEq

/-- `class AnalysisResponse(BaseModel)` from the source. -/
structure AnalysisResponse where
  user_id : String
  analysis_type : String
  results : ResultsPayload
  confidence_score : ℚ
  processing_time_ms : ℚ
deriving DecidableEq

/-- The `"text_analysis"` sub-dict of `detailed_analysis` in `match_users`. -/
structure TextAnalysisDetail where
  communication_compatibility : ℚ
  personality_alignment : ℚ
  lifestyle_similarity : ℚ
deriving DecidableEq

/-- The `"image_analysis"` sub-dict of `detailed_analysis` in `match_users`;
`aesthetic_compatibility` is `None` when the image modality is absent. -/
structure ImageAnalysisDetail where
  aesthetic_compatibility : Option ℚ
  cleanliness_alignment : ℚ
  space_organization_similarity : ℚ
deriving DecidableEq

/-- The `"preference_matching"` sub-dict of `detailed_analysis` in
`match_users`. -/
structure PreferenceMatchingDetail where
  schedule_compatibility : ℚ
  social_preference_alignment : ℚ
  noise_tolerance_match : ℚ
deriving DecidableEq

/-- The `detailed_analysis` dict of `match_users`. -/
structure DetailedAnalysis where
  text_analysis : TextAnalysisDetail
  image_analysis : ImageAnalysisDetail
  preference_matching : PreferenceMatchingDetail
deriving DecidableEq

/-- `class MatchResponse(BaseModel)` from the source. -/
structure MatchResponse where
  match_score : ℚ
  compatibility_factors : List String
  image_compatibility : Option ℚ := none
  text_compatibility : Option ℚ := none
  lifestyle_compatibility : Option ℚ := none
  detailed_analysis : DetailedAnalysis
deriving DecidableEq

/-- Python truthiness of an `Optional[List[str]]` value: `None` and the empty
list are falsy, a non-empty list is truthy. -/
def truthyList (l : Option (List String)) : Bool :=
  match l with
  | none => false
  | some xs => !xs.isEmpty

/-- Python truthiness of an `Optional[float]` value: `None` and `0.0` are
falsy, any other float is truthy (used for `if image_compatibility:`). -/
def optTruthy (q : Option ℚ) : Bool :=
  match q with
  | none => false
  | some v => decide (v ≠ 0)

/-- The source's `request.user1_images and request.user2_images` condition in
`match_users` (line 238): truthy exactly when both image lists are given and
non-empty. -/
def bothImagesPresent (r : MatchRequest) : Bool :=
  truthyList r.user1_images && truthyList r.user2_images

/-- `analyze_image` (src/ai_service/app.py, lines 106-159). `decode` models
the external `base64.b64decode` + `Image.open` pipeline; on failure the
handler's `except` branch raises `HTTPException(500, "Image analysis failed:
" + str(e))`. On success every result entry except `image_type`,
`image_size` and `image_format` is a hard-coded mock constant, and the
response confidence is the constant `0.92`. -/
def analyzeImage (decode : String → Except String PILImage) (c : Clock)
    (request : ImageAnalysisRequest) : Except HTTPException AnalysisResponse :=
  match decode request.image_data with
  | Except.error e =>
      Except.error ⟨500, "Image analysis failed: " ++ e⟩
  | Except.ok image =>
      let analysis_results : ImageResults :=
        { image_type := request.image_type
          image_size := image.size
          image_format := image.format
          color_palette := ["#FF0000", "#00FF00", "#0000FF"]
          objects_detected := ["furniture", "electronics", "books"]
          cleanliness_score := 85 / 100
          lifestyle_indicators := ["organized", "tech-savvy", "studious"]
          room_style := "modern_minimalist"
          clutter_level := "low"
          aesthetic_preference := "minimalist"
          personality_hints := ["detail-oriented", "practical", "ambitious"] }
      let processing_time : ℚ := (c.t1 - c.t0) * 1000
      Except.ok
        { user_id := request.user_id
          analysis_type := "image_analysis"
          results := ResultsPayload.image analysis_results
          confidence_score := 92 / 100
          processing_time_ms := round2 processing_time }

/-- The `analysis_results` dict of `analyze_text` as a function of the only
two request-dependent entries: `text_type` and `len(text)`. -/
def textResultsOf (text_type : String) (text_length : Nat) : TextResults :=
  { text_type := text_type
    text_length := text_length
    sentiment := "positive"
    sentiment_score := 78 / 100
    keywords := ["friendly", "clean", "quiet", "organized", "ambitious"]
    personality_traits := ["extroverted", "organized", "ambitious", "friendly"]
    lifestyle_preferences := ["early_bird", "clean_freak", "social", "studious"]
    communication_style := "direct_and_friendly"
    stress_level := "low"
    social_preference := "moderate"
    cleanliness_priority := "high"
    noise_tolerance := "low"
    schedule_preference := "structured" }

/-- `analyze_text` (src/ai_service/app.py, lines 161-212). Every operation in
the `try` body is total (dict construction, `len`, arithmetic, model
construction), so the embedded handler always returns `Except.ok`; the
`except` branch of the source is dead code. -/
def analyzeText (c : Clock) (request : TextAnalysisRequest) :
    Except HTTPException AnalysisResponse :=
  let analysis_results : TextResults :=
    { text_type := request.text_type
      text_length := request.text.length
      sentiment := "positive"
      sentiment_score := 78 / 100
      keywords := ["friendly", "clean", "quiet", "organized", "ambitious"]
      personality_traits := ["extroverted", "organized", "ambitious", "friendly"]
      lifestyle_preferences := ["early_bird", "clean_freak", "social", "studious"]
      communication_style := "direct_and_friendly"
      stress_level := "low"
      social_preference := "moderate"
      cleanliness_priority := "high"
      noise_tolerance := "low"
      schedule_preference := "structured" }
  let processing_time : ℚ := (c.t1 - c.t0) * 1000
  Except.ok
    { user_id := request.user_id
      analysis_type := "text_analysis"
      results := ResultsPayload.text analysis_results
      confidence_score := 88 / 100
      processing_time_ms := round2 processing_time }

/-- The hard-coded `compatibility_factors` list literal of `match_users`
(lines 247-252), before the conditional append of the image factor. -/
def baseFactors : List String :=
  ["Similar lifestyle preferences",
   "Compatible communication styles",
   "Matching cleanliness standards",
   "Shared interests in technology and organization"]

/-- `match_users` (src/ai_service/app.py, lines 214-289). The mock algorithm:
`text_compatibility = 0.85`, `image_compatibility = 0.78` when both image
lists are truthy else `None`, `lifestyle_compatibility = 0.92`; the overall
score is the plain average of the available scores (`/3` or `/2`), rounded
to two decimals. The `if image_compatibility:` tests use Python float
truthiness (`None` and `0.0` falsy). The `processing_time` computed from
the clock is discarded: `MatchResponse` has no processing-time field. Every
operation in the `try` body is total, so the handler always returns
`Except.ok` and the `except` branch of the source is dead code. -/
def matchUsers (c : Clock) (request : MatchRequest) :
    Except HTTPException MatchResponse :=
  let text_compatibility : ℚ := 85 / 100
  let image_compatibility : Option ℚ :=
    if bothImagesPresent request then some (78 / 100) else none
  let lifestyle_compatibility : ℚ := 92 / 100
  let match_score : ℚ :=
    match image_compatibility with
    | some ic =>
        if ic = 0 then (text_compatibility + lifestyle_compatibility) / 2
        else (text_compatibility + ic + lifestyle_compatibility) / 3
    | none => (text_compatibility + lifestyle_compatibility) / 2
  let compatibility_factors : List String :=
    if optTruthy image_compatibility then
      baseFactors ++ ["Compatible room aesthetics"]
    else baseFactors
  let detailed_analysis : DetailedAnalysis :=
    { text_analysis :=
        { communication_compatibility := 88 / 100
          personality_alignment := 82 / 100
          lifestyle_similarity := 90 / 100 }
      image_analysis :=
        { aesthetic_compatibility :=
            if optTruthy image_compatibility then some (75 / 100) else none
          cleanliness_alignment := 85 / 100
          space_organization_similarity := 80 / 100 }
      preference_matching :=
        { schedule_compatibility := 92 / 100
          social_preference_alignment := 78 / 100
          noise_tolerance_match := 85 / 100 } }
  let _processing_time : ℚ := (c.t1 - c.t0) * 1000
  Except.ok
    { match_score := round2 match_score
      compatibility_factors := compatibility_factors
      image_compatibility := image_compatibility
      text_compatibility := some text_compatibility
      lifestyle_compatibility := some lifestyle_compatibility
      detailed_analysis := detailed_analysis }

/-- Python `str(e)` for a raised `HTTPException`, which prints the exception's
argument tuple `(status_code, detail)`; quote-escaping inside the detail
string is elided (no detail raised by this service contains a quote). -/
def pyStrHTTPException (e : HTTPException) : String :=
  "(" ++ toString e.status_code ++ ", " ++ "'" ++ e.detail ++ "')"

/-- The `for request in requests:` loop of `batch_analyze`: each request is
passed to `analyze_image` and the results are collected in order; the first
raised exception aborts the loop and propagates. -/
def batchLoop (decode : String → Except String PILImage) (c : Clock) :
    List ImageAnalysisRequest → Except HTTPException (List AnalysisResponse)
  | [] => Except.ok []
  | q :: qs =>
      match analyzeImage decode c q with
      | Except.error e => Except.error e
      | Except.ok a =>
          match batchLoop decode c qs with
          | Except.error e => Except.error e
          | Except.ok rest => Except.ok (a :: rest)

/-- The return payload of `batch_analyze`. -/
structure BatchResult where
  analyses : List AnalysisResponse
  total_processed : Nat
  batch_size : Nat
deriving DecidableEq

/-- `batch_analyze` (src/ai_service/app.py, lines 291-317): runs
`analyze_image` on each request in order; any exception raised by an inner
call is caught by the handler's `except` branch and re-raised as
`HTTPException(500, "Batch analysis failed: " + str(e))`. -/
def batchAnalyze (decode : String → Except String PILImage) (c : Clock)
    (requests : List ImageAnalysisRequest) : Except HTTPException BatchResult :=
  match batchLoop decode c requests with
  | Except.ok results =>
      Except.ok
        { analyses := results
          total_processed := results.length
          batch_size := requests.length }
  | Except.error e =>
      Except.error ⟨500, "Batch analysis failed: " ++ pyStrHTTPException e⟩

/-- The spec's three evidence modalities. -/
inductive Modality where
  | TEXT
  | IMAGE
  | PREFERENCE
deriving DecidableEq

/-- The per-modality compatibility constants hard-coded by `match_users`
(lines 237-239): text `0.85`, image `0.78`, lifestyle/preference `0.92`. -/
def codeModalityScore : Modality → ℚ
  | Modality.TEXT => 85 / 100
  | Modality.IMAGE => 78 / 100
  | Modality.PREFERENCE => 92 / 100

/-- The modalities whose scores `match_users` actually feeds into the overall
score: text and lifestyle/preference unconditionally, image exactly when both
image lists are truthy (listed in the order the code computes them). -/
def presentModalities (r : MatchRequest) : List Modality :=
  [Modality.TEXT] ++
    (if bothImagesPresent r then [Modality.IMAGE] else []) ++
    [Modality.PREFERENCE]

/-- The per-modality scores entering the overall score, in code order. -/
def presentScores (r : MatchRequest) : List ℚ :=
  (presentModalities r).map codeModalityScore

/-- Modelled from the spec: the declared per-modality weights "TEXT 0.4,
IMAGE 0.3, PREFERENCE 0.3 (by default)". -/
def specModalityWeight : Modality → ℚ
  | Modality.TEXT => 4 / 10
  | Modality.IMAGE => 3 / 10
  | Modality.PREFERENCE => 3 / 10

/-- Modelled from the spec: the overall score as "the convex combination of
the per-modality scores of the modalities present for both, using declared
per-modality weights ... renormalized so the weights of the present
modalities sum to 1", applied to the code's per-modality scores. -/
def specWeightedScore (r : MatchRequest) : ℚ :=
  ((presentModalities r).map
      (fun m => specModalityWeight m * codeModalityScore m)).sum /
    ((presentModalities r).map specModalityWeight).sum

/-- Modelled from the spec: a factor's "impact = similarity × weight", taking
the similarity to be the code's per-modality compatibility score and the
weight to be the spec's declared per-modality weight. -/
def specImpact (m : Modality) : ℚ :=
  codeModalityScore m * specModalityWeight m

/-- Modelled from the spec: attribution of the code's per-modality factor
strings to modalities by their wording — the communication factor to TEXT,
the room-aesthetics factor to IMAGE (the code itself appends this one exactly
when the image modality is present), and the lifestyle-preferences factor to
PREFERENCE (the spec's "structured lifestyle preferences" modality). -/
def factorOfModality : Modality → String
  | Modality.TEXT => "Compatible communication styles"
  | Modality.IMAGE => "Compatible room aesthetics"
  | Modality.PREFERENCE => "Similar lifestyle preferences"

/-- Modelled from the spec: the Modality Aggregator's bundle confidence, "the
mean of the per-item confidences, discounted by `1 - 1/(1+n)` where n is the
item count, clamped to [0,1]" — the function `batch_analyze` would have to
compute per the spec, absent from the code. -/
def specBundleConfidence (cs : List ℚ) : ℚ :=
  let n : ℚ := cs.length
  min 1 (max 0 ((cs.sum / n) * (1 - 1 / (1 + n))))

/-- Modelled from the spec: "no modality is present for both subjects" — for
each of the three modalities, at least one subject carries no data for it:
at least one image list is empty or missing, at least one profile has an
empty free-text description, and at least one profile has no structured
preferences. -/
def specNoSharedModality (r : MatchRequest) : Bool :=
  (r.user1_profile.description == "" || r.user2_profile.description == "") &&
  (!truthyList r.user1_images || !truthyList r.user2_images) &&
  (r.user1_profile.preferences.isEmpty || r.user2_profile.preferences.isEmpty)

/-- The constant `MatchResponse` returned by `match_users` whenever both
image lists are truthy: `(0.85 + 0.78 + 0.92) / 3 = 0.85`. -/
def respWithImages : MatchResponse :=
  { match_score := 85 / 100
    compatibility_factors := baseFactors ++ ["Compatible room aesthetics"]
    image_compatibility := some (78 / 100)
    text_compatibility := some (85 / 100)
    lifestyle_compatibility := some (92 / 100)
    detailed_analysis :=
      { text_analysis :=
          { communication_compatibility := 88 / 100
            personality_alignment := 82 / 100
            lifestyle_similarity := 90 / 100 }
        image_analysis :=
          { aesthetic_compatibility := some (75 / 100)
            cleanliness_alignment := 85 / 100
            space_organization_similarity := 80 / 100 }
        preference_matching :=
          { schedule_compatibility := 92 / 100
            social_preference_alignment := 78 / 100
            noise_tolerance_match := 85 / 100 } } }

/-- The constant `MatchResponse` returned by `match_users` whenever at least
one image list is missing or empty: `round((0.85 + 0.92) / 2, 2) = 0.89`. -/
def respNoImages : MatchResponse :=
  { match_score := 89 / 100
    compatibility_factors := baseFactors
    image_compatibility := none
    text_compatibility := some (85 / 100)
    lifestyle_compatibility := some (92 / 100)
    detailed_analysis :=
      { text_analysis :=
          { communication_compatibility := 88 / 100
            personality_alignment := 82 / 100
            lifestyle_similarity := 90 / 100 }
        image_analysis :=
          { aesthetic_compatibility := none
            cleanliness_alignment := 85 / 100
            space_organization_similarity := 80 / 100 }
        preference_matching :=
          { schedule_compatibility := 92 / 100
            social_preference_alignment := 78 / 100
            noise_tolerance_match := 85 / 100 } } }

/-- Value of the rounding step on the two-modality average:
`round((0.85 + 0.92) / 2, 2) = 0.89`. -/
theorem round2_noImage : round2 ((85 / 100 + 92 / 100) / 2 : ℚ) = 89 / 100 := by
  have h : ⌊(((85 : ℚ) / 100 + 92 / 100) / 2) * 100 + 1 / 2⌋ = (89 : ℤ) :=
    Int.floor_eq_iff.mpr (by norm_num)
  unfold round2
  rw [h]
  norm_num

/-- Value of the rounding step on the three-modality average:
`round((0.85 + 0.78 + 0.92) / 3, 2) = 0.85`. -/
theorem round2_withImage :
    round2 ((85 / 100 + 78 / 100 + 92 / 100) / 3 : ℚ) = 85 / 100 := by
  have h : ⌊(((85 : ℚ) / 100 + 78 / 100 + 92 / 100) / 3) * 100 + 1 / 2⌋ = (85 : ℤ) :=
    Int.floor_eq_iff.mpr (by norm_num)
  unfold round2
  rw [h]
  norm_num

/-- Evaluation of `match_users`: every request succeeds, and the response is
one of two constants, selected solely by whether both image lists are
non-empty. -/
theorem matchUsers_eval (c : Clock) (r : MatchRequest) :
    matchUsers c r =
      Except.ok (if bothImagesPresent r then respWithImages else respNoImages) := by
  cases h : bothImagesPresent r
  · simp only [matchUsers, h, Bool.false_eq_true, if_false]
    rw [round2_noImage]
    rfl
  · have ht : optTruthy (some ((78 : ℚ) / 100)) = true := by
      simp only [optTruthy, decide_eq_true_eq]
      norm_num
    simp only [matchUsers, h, if_true]
    rw [if_neg (by norm_num : ¬((78 : ℚ) / 100 = 0))]
    rw [round2_withImage]
    simp only [ht, if_true]
    rfl

/-- A zero wall-clock fixture. -/
def clk0 : Clock := ⟨0, 0⟩

/-- A second, distinct wall-clock fixture. -/
def clk1 : Clock := ⟨100, 101⟩

/-- A profile carrying no text, no interests and no preferences. -/
def emptyProfile (uid : String) : UserProfile :=
  ⟨uid, "", [], "", "", []⟩

/-- A request with empty profiles and no images: no data in any modality. -/
def noSignalRequest : MatchRequest :=
  ⟨emptyProfile "user_1", emptyProfile "user_2", none, none⟩

/-- A full profile, taken from the repository's test script. -/
def profileJohn : UserProfile :=
  ⟨"user_1", "John Doe", ["hiking", "cooking", "reading"],
   "organized and quiet", "Software developer who loves outdoor activities",
   [("cleanliness", "high"), ("noise_level", "low"), ("schedule", "early_bird")]⟩

/-- A second full profile, taken from the repository's test script. -/
def profileJane : UserProfile :=
  ⟨"user_2", "Jane Smith", ["yoga", "meditation", "cooking"],
   "peaceful and clean", "Graduate student who values quiet study time",
   [("cleanliness", "high"), ("noise_level", "low"), ("schedule", "early_bird")]⟩

/-- Full profiles with one image each. -/
def reqImagesA : MatchRequest :=
  ⟨profileJohn, profileJane, some ["aW1hZ2VBMQ=="], some ["aW1hZ2VCMQ=="]⟩

/-- Empty profiles with different image payloads and counts. -/
def reqImagesB : MatchRequest :=
  ⟨emptyProfile "x", emptyProfile "y", some ["zzz", "www"], some ["qqq"]⟩

/-- Full profiles, no images at all. -/
def reqNoImagesFull : MatchRequest :=
  ⟨profileJohn, profileJane, none, none⟩

/-- Full profiles; the first subject has no images, the second has one. -/
def reqOneMissing : MatchRequest :=
  ⟨profileJohn, profileJane, none, some ["aW1hZ2U="]⟩

/-- Full profiles with image strings that are not decodable images. -/
def reqBadImages : MatchRequest :=
  ⟨profileJohn, profileJane, some ["%%not-base64%%"], some ["also no image"]⟩

/-- A decode pipeline that fails on every input, as `PIL.Image.open` does on
malformed data (its exception message). -/
def badDecode : String → Except String PILImage :=
  fun _ => Except.error "cannot identify image file"

/-- A decode pipeline that succeeds on every input with a 200x200 JPEG, as in
the repository's test script. -/
def goodDecode : String → Except String PILImage :=
  fun _ => Except.ok ⟨(200, 200), some "JPEG"⟩

/-- An image-analysis request fixture. -/
def imgReq1 : ImageAnalysisRequest := ⟨"test_user_123", "img1-bytes", "profile", none⟩

/-- A second image-analysis request fixture. -/
def imgReq2 : ImageAnalysisRequest := ⟨"test_user_123", "img2-bytes", "room", none⟩

/-- A third image-analysis request fixture. -/
def imgReq3 : ImageAnalysisRequest := ⟨"test_user_123", "img3-bytes", "lifestyle", none⟩

/-- An image-analysis request whose payload is not a decodable image. -/
def imgReqBad : ImageAnalysisRequest := ⟨"test_user_123", "%%not-base64%%", "profile", none⟩

/-- C1 counterexample: on a request carrying no data in any modality (no
images, empty profile text and preferences for both subjects) the
`match_users` operation does not fail: it returns a `MatchResponse` with
`match_score = 0.89`, silently defaulting to a score instead of raising
`InsufficientSignalError` as the claim states. -/
theorem C1_cex_no_signal_still_scores :
    specNoSharedModality noSignalRequest = true ∧
      matchUsers clk0 noSignalRequest = Except.ok respNoImages ∧
      respNoImages.match_score = 89 / 100 := by
  refine ⟨rfl, ?_, rfl⟩
  rw [matchUsers_eval]
  rfl

/-- C1 amended: `match_users` never fails — for every request (including
requests with no shared modality data) it returns a `MatchResponse`; the
code defines no `InsufficientSignalError` and has no reachable error path,
so the insufficient-signal case is silently defaulted to a score. -/
theorem C1_match_users_never_fails (c : Clock) (r : MatchRequest) :
    ∃ resp, matchUsers c r = Except.ok resp :=
  ⟨_, matchUsers_eval c r⟩

/-- C2 counterexample: on a request with no images, the returned overall
score is `0.89` (the rounded equal-weight mean `(0.85 + 0.92) / 2`), while
the spec's declared weights TEXT `0.4` / PREFERENCE `0.3` renormalized over
the present modalities give `(0.4·0.85 + 0.3·0.92) / 0.7 = 0.88`; the two
disagree, so the code does not use the declared weights. -/
theorem C2_cex_not_declared_weights :
    matchUsers clk0 reqNoImagesFull = Except.ok respNoImages ∧
      specWeightedScore reqNoImagesFull = 88 / 100 ∧
      respNoImages.match_score = 89 / 100 ∧
      respNoImages.match_score ≠ specWeightedScore reqNoImagesFull ∧
      respNoImages.match_score ≠ round2 (specWeightedScore reqNoImagesFull) := by
  have hb : bothImagesPresent reqNoImagesFull = false := rfl
  have hw : specWeightedScore reqNoImagesFull = 88 / 100 := by
    simp only [specWeightedScore, presentModalities, hb, Bool.false_eq_true, if_false,
      List.nil_append, List.singleton_append, List.map_cons, List.map_nil,
      List.sum_cons, List.sum_nil, specModalityWeight, codeModalityScore]
    norm_num
  have hr : round2 ((88 : ℚ) / 100) = 88 / 100 := by
    have h : ⌊((88 : ℚ) / 100) * 100 + 1 / 2⌋ = (88 : ℤ) :=
      Int.floor_eq_iff.mpr (by norm_num)
    unfold round2
    rw [h]
    norm_num
  refine ⟨?_, hw, rfl, ?_, ?_⟩
  · rw [matchUsers_eval]
    rfl
  · rw [hw]
    norm_num [respNoImages]
  · rw [hw, hr]
    norm_num [respNoImages]

/-- C2 amended: the overall score is the two-decimal rounding of the
arithmetic mean of the per-modality scores present for both subjects — a
convex combination with equal weights `1/n` (which sum to 1), not the
declared weights 0.4/0.3/0.3. -/
theorem C2_score_is_equal_weight_mean (c : Clock) (r : MatchRequest) :
    ∃ resp, matchUsers c r = Except.ok resp ∧
      resp.match_score =
        round2 ((presentScores r).sum / ((presentScores r).length : ℚ)) ∧
      ((presentScores r).map
          (fun _ => (1 : ℚ) / ((presentScores r).length : ℚ))).sum = 1 := by
  cases h : bothImagesPresent r
  · have hs : presentScores r = [85 / 100, 92 / 100] := by
      simp [presentScores, presentModalities, h, codeModalityScore]
    refine ⟨respNoImages, ?_, ?_, ?_⟩
    · rw [matchUsers_eval]
      simp only [h, Bool.false_eq_true, if_false]
    · rw [hs,
        show (List.sum [(85 : ℚ) / 100, 92 / 100] /
            (([(85 : ℚ) / 100, 92 / 100].length : ℕ) : ℚ)) =
          ((85 : ℚ) / 100 + 92 / 100) / 2 from by
            norm_num [List.sum_cons, List.sum_nil],
        round2_noImage]
      rfl
    · rw [hs]
      norm_num [List.sum_cons, List.sum_nil]
  · have hs : presentScores r = [85 / 100, 78 / 100, 92 / 100] := by
      simp [presentScores, presentModalities, h, codeModalityScore]
    refine ⟨respWithImages, ?_, ?_, ?_⟩
    · rw [matchUsers_eval]
      simp only [h, if_true]
    · rw [hs,
        show (List.sum [(85 : ℚ) / 100, 78 / 100, 92 / 100] /
            (([(85 : ℚ) / 100, 78 / 100, 92 / 100].length : ℕ) : ℚ)) =
          ((85 : ℚ) / 100 + 78 / 100 + 92 / 100) / 3 from by
            norm_num [List.sum_cons, List.sum_nil],
        round2_withImage]
      rfl
    · rw [hs]
      norm_num [List.sum_cons, List.sum_nil]

/-- C3: when the image modality is missing for at least one subject, it is
excluded from the overall score and from the normalization denominator (the
score is the rounded mean of the two remaining modality scores, denominator
2), and it is reported as absent (`None`) in the per-modality scores rather
than as zero. -/
theorem C3_missing_modality_excluded (c : Clock) (r : MatchRequest)
    (h : truthyList r.user1_images = false ∨ truthyList r.user2_images = false) :
    ∃ resp, matchUsers c r = Except.ok resp ∧
      resp.image_compatibility = none ∧
      Modality.IMAGE ∉ presentModalities r ∧
      (presentScores r).length = 2 ∧
      resp.match_score = round2 ((presentScores r).sum / 2) := by
  have hb : bothImagesPresent r = false := by
    unfold bothImagesPresent
    rcases h with h1 | h1 <;> simp [h1]
  have hs : presentScores r = [85 / 100, 92 / 100] := by
    simp [presentScores, presentModalities, hb, codeModalityScore]
  refine ⟨respNoImages, ?_, rfl, ?_, ?_, ?_⟩
  · rw [matchUsers_eval]
    simp only [hb, Bool.false_eq_true, if_false]
  · simp [presentModalities, hb]
  · rw [hs]
    rfl
  · rw [hs,
      show (List.sum [(85 : ℚ) / 100, 92 / 100] / 2) =
        ((85 : ℚ) / 100 + 92 / 100) / 2 from by
          norm_num [List.sum_cons, List.sum_nil],
      round2_noImage]
    rfl

/-- C3 witness: the theorem applied to a concrete request whose first subject
has no image list. -/
theorem C3_missing_modality_excluded_witness :
    (truthyList reqOneMissing.user1_images = false ∨
        truthyList reqOneMissing.user2_images = false) ∧
      (∃ resp, matchUsers clk0 reqOneMissing = Except.ok resp ∧
        resp.image_compatibility = none ∧
        Modality.IMAGE ∉ presentModalities reqOneMissing ∧
        (presentScores reqOneMissing).length = 2 ∧
        resp.match_score = round2 ((presentScores reqOneMissing).sum / 2)) :=
  ⟨Or.inl rfl, C3_missing_modality_excluded clk0 reqOneMissing (Or.inl rfl)⟩

/-- C4: the match computation is deterministic and independent of the wall
clock — two invocations with the same request but arbitrary different clock
readings (hence different processing times) return identical results. -/
theorem C4_deterministic_no_clock_influence (c1 c2 : Clock) (r : MatchRequest) :
    matchUsers c1 r = matchUsers c2 r := by
  rw [matchUsers_eval, matchUsers_eval]

/-- C5: noninterference of profile content — any two requests that agree on
whether both image lists are non-empty receive identical `MatchResponse`
values, whatever the profiles and the image bytes, and whatever the clock. -/
theorem C5_profile_noninterference (c1 c2 : Clock) (r1 r2 : MatchRequest)
    (h : bothImagesPresent r1 = bothImagesPresent r2) :
    matchUsers c1 r1 = matchUsers c2 r2 := by
  rw [matchUsers_eval, matchUsers_eval, h]

/-- C5 witness: two concrete requests with entirely different profiles, image
bytes and image counts (but both with non-empty image lists) receive the
same response, across different clocks. -/
theorem C5_profile_noninterference_witness :
    bothImagesPresent reqImagesA = bothImagesPresent reqImagesB ∧
      matchUsers clk0 reqImagesA = matchUsers clk1 reqImagesB :=
  ⟨rfl, C5_profile_noninterference clk0 clk1 reqImagesA reqImagesB rfl⟩

/-- C6: for every request sharing at least one modality, the returned overall
score lies in the closed interval [0,1] (it is 0.85 or 0.89). -/
theorem C6_score_in_unit_interval (c : Clock) (r : MatchRequest)
    (_h : 1 ≤ (presentModalities r).length) :
    ∃ resp, matchUsers c r = Except.ok resp ∧
      0 ≤ resp.match_score ∧ resp.match_score ≤ 1 := by
  cases hb : bothImagesPresent r
  · refine ⟨respNoImages, ?_, ?_, ?_⟩
    · rw [matchUsers_eval]
      simp only [hb, Bool.false_eq_true, if_false]
    · norm_num [respNoImages]
    · norm_num [respNoImages]
  · refine ⟨respWithImages, ?_, ?_, ?_⟩
    · rw [matchUsers_eval]
      simp only [hb, if_true]
    · norm_num [respWithImages]
    · norm_num [respWithImages]

/-- C6 witness: the theorem applied to a concrete request with all three
modalities present. -/
theorem C6_score_in_unit_interval_witness :
    1 ≤ (presentModalities reqImagesA).length ∧
      (∃ resp, matchUsers clk0 reqImagesA = Except.ok resp ∧
        0 ≤ resp.match_score ∧ resp.match_score ≤ 1) :=
  ⟨by decide, C6_score_in_unit_interval clk0 reqImagesA (by decide)⟩

/-- C7 counterexample: a failed image analysis surfaces as a plain
`HTTPException` (status 500, detail string) rather than a typed
`AnalysisFailure{modality, subject_id, cause}`; and `match_users` never runs
any analyzer — a request whose image strings are not decodable images still
has the image modality treated as present with score `0.78` (not absent) as
long as both lists are non-empty, contradicting the claim. -/
theorem C7_cex_untyped_failure_modality_not_absent :
    analyzeImage badDecode clk0 imgReqBad =
        Except.error ⟨500, "Image analysis failed: cannot identify image file"⟩ ∧
      matchUsers clk0 reqBadImages = Except.ok respWithImages ∧
      respWithImages.image_compatibility = some (78 / 100) ∧
      respWithImages.image_compatibility ≠ none := by
  refine ⟨rfl, ?_, rfl, by simp [respWithImages]⟩
  rw [matchUsers_eval]
  rfl

/-- C7 amended: an analyzer failure surfaces as
`HTTPException(500, "Image analysis failed: " + cause)` — typed only by a
status code and a detail string, with no modality or subject fields — and
downstream match computation ignores analysis entirely: whenever both image
lists are non-empty the image modality is scored `0.78` regardless of
whether its data is analyzable. -/
theorem C7_failure_is_http_500_and_match_ignores_analysis
    (decode : String → Except String PILImage) (c c' : Clock)
    (r : ImageAnalysisRequest) (msg : String) (mr : MatchRequest)
    (hdec : decode r.image_data = Except.error msg)
    (himg : bothImagesPresent mr = true) :
    analyzeImage decode c r =
        Except.error ⟨500, "Image analysis failed: " ++ msg⟩ ∧
      ∃ resp, matchUsers c' mr = Except.ok resp ∧
        resp.image_compatibility = some (78 / 100) := by
  constructor
  · unfold analyzeImage
    rw [hdec]
  · refine ⟨respWithImages, ?_, rfl⟩
    rw [matchUsers_eval]
    simp only [himg, if_true]

/-- C7 witness: the amended theorem applied to a concrete failing decode and
a concrete request with undecodable images. -/
theorem C7_failure_is_http_500_witness :
    badDecode imgReqBad.image_data = Except.error "cannot identify image file" ∧
      bothImagesPresent reqBadImages = true ∧
      (analyzeImage badDecode clk1 imgReqBad =
          Except.error ⟨500, "Image analysis failed: cannot identify image file"⟩ ∧
        ∃ resp, matchUsers clk1 reqBadImages = Except.ok resp ∧
          resp.image_compatibility = some (78 / 100)) :=
  ⟨rfl, rfl,
    C7_failure_is_http_500_and_match_ignores_analysis badDecode clk1 clk1
      imgReqBad "cannot identify image file" reqBadImages rfl rfl⟩

/-- When every request in the batch decodes, the loop of `batch_analyze`
returns one response per request, each with the constant confidence 0.92. -/
theorem batchLoop_all_ok (decode : String → Except String PILImage) (c : Clock) :
    ∀ reqs : List ImageAnalysisRequest,
      (reqs.all fun q => (decode q.image_data).isOk) = true →
      ∃ results, batchLoop decode c reqs = Except.ok results ∧
        results.length = reqs.length ∧
        ∀ a ∈ results, a.confidence_score = 92 / 100 := by
  intro reqs
  induction reqs with
  | nil => exact fun _ => ⟨[], rfl, rfl, by simp⟩
  | cons q qs ih =>
    intro h
    rw [List.all_cons, Bool.and_eq_true] at h
    obtain ⟨h1, h2⟩ := h
    obtain ⟨img, himg⟩ : ∃ img, decode q.image_data = Except.ok img := by
      cases hd : decode q.image_data with
      | error e => rw [hd] at h1; simp [Except.isOk, Except.toBool] at h1
      | ok v => exact ⟨v, rfl⟩
    obtain ⟨a, ha, hconfa⟩ :
        ∃ a, analyzeImage decode c q = Except.ok a ∧
          a.confidence_score = 92 / 100 := by
      unfold analyzeImage
      rw [himg]
      exact ⟨_, rfl, rfl⟩
    obtain ⟨rest, hrest, hlen, hconf⟩ := ih h2
    refine ⟨a :: rest, ?_, by simp [hlen], ?_⟩
    · simp only [batchLoop, ha, hrest]
    · intro a' ha'
      rcases List.mem_cons.mp ha' with heq | hmem
      · rw [heq]; exact hconfa
      · exact hconf a' hmem

/-- C8 amended: `batch_analyze` performs no aggregation — when every request
decodes it returns one independent `AnalysisResponse` per request (counts
equal the request count), each carrying the constant per-item confidence
0.92; no bundle-level confidence of the form mean × (1 − 1/(1+n)) is
computed anywhere. -/
theorem C8_batch_no_aggregation (decode : String → Except String PILImage)
    (c : Clock) (reqs : List ImageAnalysisRequest)
    (h : (reqs.all fun q => (decode q.image_data).isOk) = true) :
    ∃ br, batchAnalyze decode c reqs = Except.ok br ∧
      br.total_processed = reqs.length ∧
      br.batch_size = reqs.length ∧
      ∀ a ∈ br.analyses, a.confidence_score = 92 / 100 := by
  obtain ⟨results, hloop, hlen, hconf⟩ := batchLoop_all_ok decode c reqs h
  refine ⟨⟨results, results.length, reqs.length⟩, ?_, hlen, rfl, hconf⟩
  unfold batchAnalyze
  rw [hloop]

/-- C8 witness: the amended theorem applied to a batch of three concrete
requests under an always-succeeding decoder. -/
theorem C8_batch_no_aggregation_witness :
    (([imgReq1, imgReq2, imgReq3].all fun q => (goodDecode q.image_data).isOk)
        = true) ∧
      (∃ br, batchAnalyze goodDecode clk0 [imgReq1, imgReq2, imgReq3] =
          Except.ok br ∧
        br.total_processed = [imgReq1, imgReq2, imgReq3].length ∧
        br.batch_size = [imgReq1, imgReq2, imgReq3].length ∧
        ∀ a ∈ br.analyses, a.confidence_score = 92 / 100) :=
  ⟨rfl, C8_batch_no_aggregation goodDecode clk0 [imgReq1, imgReq2, imgReq3] rfl⟩

/-- C8 counterexample: on a concrete batch of three decodable requests, every
returned confidence is the constant 0.92 — the code cannot produce the
claimed per-item confidences [0.9, 0.7, 0.8] and returns no bundle
confidence; the spec's own formula (here validated on the spec's example:
mean(0.9,0.7,0.8) × (1 − 1/4) = 0.6, and on the code's constants:
mean(0.92,0.92,0.92) × (1 − 1/4) = 0.69) matches no value in the result. -/
theorem C8_cex_constant_confidence_no_bundle :
    (batchAnalyze goodDecode clk0 [imgReq1, imgReq2, imgReq3]).map
        (fun br => (br.analyses.map fun a => a.confidence_score,
          br.total_processed, br.batch_size)) =
      Except.ok ([92 / 100, 92 / 100, 92 / 100], 3, 3) ∧
      specBundleConfidence [9 / 10, 7 / 10, 8 / 10] = 6 / 10 ∧
      specBundleConfidence [92 / 100, 92 / 100, 92 / 100] = 69 / 100 ∧
      (92 : ℚ) / 100 ≠ 6 / 10 ∧
      (92 : ℚ) / 100 ≠ 69 / 100 := by
  refine ⟨rfl, ?_, ?_, by norm_num, by norm_num⟩
  · simp only [specBundleConfidence, List.sum_cons, List.sum_nil,
      List.length_cons, List.length_nil]
    norm_num
  · simp only [specBundleConfidence, List.sum_cons, List.sum_nil,
      List.length_cons, List.length_nil]
    norm_num

/-- C9 counterexample: the factor list is not sorted by impact =
similarity × weight. Under the spec's declared weights the TEXT modality has
the strictly largest impact (0.4 × 0.85 = 0.34 against 0.3 × 0.92 = 0.276
for PREFERENCE), yet the code's list places the preference factor before the
text factor on every request with images. -/
theorem C9_cex_not_impact_sorted :
    matchUsers clk0 reqImagesA = Except.ok respWithImages ∧
      respWithImages.compatibility_factors.take 2 =
        [factorOfModality Modality.PREFERENCE, factorOfModality Modality.TEXT] ∧
      specImpact Modality.TEXT > specImpact Modality.PREFERENCE := by
  refine ⟨?_, rfl, ?_⟩
  · rw [matchUsers_eval]
    rfl
  · norm_num [specImpact, codeModalityScore, specModalityWeight]

/-- C9 amended: the factor list always has at most 6 entries — exactly the
fixed four-string list, plus a fifth image factor appended exactly when both
image lists are non-empty; it is a hard-coded constant, not the result of
sorting per-factor impacts. -/
theorem C9_factors_capped_constant (c : Clock) (r : MatchRequest) :
    ∃ resp, matchUsers c r = Except.ok resp ∧
      resp.compatibility_factors.length ≤ 6 ∧
      resp.compatibility_factors =
        (if bothImagesPresent r then
          baseFactors ++ ["Compatible room aesthetics"]
        else baseFactors) := by
  cases h : bothImagesPresent r
  · refine ⟨respNoImages, ?_, by decide, by simp [h]; rfl⟩
    rw [matchUsers_eval]
    simp only [h, Bool.false_eq_true, if_false]
  · refine ⟨respWithImages, ?_, by decide, by simp [h]; rfl⟩
    rw [matchUsers_eval]
    simp only [h, if_true]

/-- C10: `analyze_text` is total — its exception branch is unreachable — and
for every request and clock the response carries the constant confidence
0.88 and a results payload that depends on the request only through
`text_type` and the length of `text`. -/
theorem C10_analyze_text_total_constant (c : Clock) (r : TextAnalysisRequest) :
    ∃ resp, analyzeText c r = Except.ok resp ∧
      resp.confidence_score = 88 / 100 ∧
      resp.results = ResultsPayload.text (textResultsOf r.text_type r.text.length) :=
  ⟨_, rfl, rfl, rfl⟩

end HomiesAI
